import Mathlib

/-!
Verification development for the `postgres.py` client library.

Shallow embedding of the modules `postgres/cursors.py`, `postgres/cache.py`,
`postgres/context_managers.py`, `postgres/orm.py` and `postgres/__init__.py`.
Python values are modelled by the inductive type `Val`, rows by `List Val`,
exceptions by explicit `Except` error values, and in-place mutation by
explicit state passing. Timestamps (`time.perf_counter`) are modelled as
rationals.
-/

namespace PostgresPy

/-! Basic data model: SQL values, rows, columns, record shapes. -/

/-- Model of a Python value stored in a database row.
`vnull` stands for Python `None` (and SQL NULL). -/
inductive Val where
  | vnull
  | vint (i : Int)
  | vstr (s : String)
  deriving DecidableEq, Repr

/-- Model of a raw row tuple as fetched by the driver. -/
abbrev PyRow := List Val

/-- Model of `cursor.description`: the ordered column names. -/
abbrev Cols := List String

/-- Model of a record produced by a `back_as` constructor: a tuple
(`return_tuple_as_is`), a dict (`make_dict`), a namedtuple
(`make_namedtuple`) or a `Row` object. -/
inductive RowRec where
  | tup (vs : List Val)
  | dict (l : List (String × Val))
  | named (l : List (String × Val))
  | rowObj (l : List (String × Val))
  deriving DecidableEq, Repr

/-- Model of what `one` returns: either a bare dereferenced scalar
or a full record. -/
inductive Out where
  | val (v : Val)
  | record (r : RowRec)
  deriving DecidableEq, Repr

/-- Model of the `back_as_registry`: a partial map from `back_as` keys
to record constructors `(columns, values) -> record`. -/
abbrev BackAsRegistry := String → Option (Cols → PyRow → RowRec)

/-- Exceptions raised by the simple cursor API (`postgres/cursors.py`).
`raisedDefault` models `raise default` when the caller passed an
`Exception` instance or subclass as `default`. -/
inductive PgErr where
  | tooFew (n lo hi : Int)
  | tooMany (n lo hi : Int)
  | badBackAs
  | raisedDefault
  deriving DecidableEq, Repr

/-- Model of the `default` argument of `one`: the value itself together
with the result of `isexception(default)`. -/
structure Dflt where
  val : Val
  isExc : Bool
  deriving DecidableEq, Repr

/-- Model of `back_as = back_as or self.back_as` (`cursors.py`,
lines 326 and 397): the explicit argument wins, otherwise the cursor
attribute is used. -/
def effectiveBackAs (back_as self_back_as : Option String) : Option String :=
  match back_as with
  | some b => some b
  | none => self_back_as

/-- Zero-row policy of `SimpleCursorBase.one` (`cursors.py` lines 308-311):
if `default` is an exception it is raised, otherwise it is returned. -/
def defaultPolicy (default : Dflt) : Except PgErr Out :=
  if default.isExc then Except.error PgErr.raisedDefault
  else Except.ok (Out.val default.val)

/-- Dereference-or-transform stage of `SimpleCursorBase.one`
(`cursors.py` lines 317-336), reached when exactly one row was fetched. -/
def deref_or_transform (row_tuple : PyRow) (columns : Cols) (default : Dflt)
    (back_as self_back_as : Option String) (registry : BackAsRegistry) :
    Except PgErr Out :=
  if row_tuple.length = 1 ∧ back_as = none then
    let out := row_tuple.headD Val.vnull
    if out = Val.vnull then defaultPolicy default
    else Except.ok (Out.val out)
  else
    match effectiveBackAs back_as self_back_as with
    | some ba =>
      match registry ba with
      | none => Except.error PgErr.badBackAs
      | some f => Except.ok (Out.record (f columns row_tuple))
    | none => Except.ok (Out.record (RowRec.tup row_tuple))

/-- Row-count policy plus dereference stage of `SimpleCursorBase.one`
(`cursors.py` lines 306-336). `row_tuple` is the row fetched by
`fetchone` (only consulted when `rowcount = 1`). -/
def one_body (rowcount : Int) (row_tuple : PyRow) (columns : Cols) (default : Dflt)
    (back_as self_back_as : Option String) (registry : BackAsRegistry) :
    Except PgErr Out :=
  if rowcount = 1 then
    deref_or_transform row_tuple columns default back_as self_back_as registry
  else if rowcount = 0 then
    defaultPolicy default
  else if rowcount < 0 then
    Except.error (PgErr.tooFew rowcount 0 1)
  else
    Except.error (PgErr.tooMany rowcount 0 1)

/-- Model of the outcome of executing a query directly on the cursor:
the column metadata, the reported row count (`cursor.rowcount`, an `Int`
because the driver reports `-1` when there is no result set), and the
fetched rows. -/
structure QueryResult where
  columns : Cols
  rowcount : Int
  rows : List PyRow
  deriving DecidableEq, Repr

/-- Uncached branch of `SimpleCursorBase.one` (`cursors.py` lines
299-304 followed by 306-336): `columns = self.description`,
`rowcount = self.rowcount`, and the row comes from `fetchone`. -/
def one_uncached (res : QueryResult) (default : Dflt)
    (back_as self_back_as : Option String) (registry : BackAsRegistry) :
    Except PgErr Out :=
  one_body res.rowcount (res.rows.headD []) res.columns default
    back_as self_back_as registry

/-- Cached branch of `SimpleCursorBase.one` (`cursors.py` lines
293-298 followed by 306-336): the row count is `len(entry.rows)` and
the row is `entry.rows[0]`. -/
def one_cached (entry_columns : Cols) (entry_rows : List PyRow) (default : Dflt)
    (back_as self_back_as : Option String) (registry : BackAsRegistry) :
    Except PgErr Out :=
  one_body (entry_rows.length : Int) (entry_rows.headD []) entry_columns default
    back_as self_back_as registry

/-- Post-processing stage of `SimpleCursorBase.all` (`cursors.py`
lines 391-406). The boolean in the result records whether the returned
Python list is the very same object as the input list `recs` (`True`
exactly on the code paths that execute `return recs` without having
rebound `recs` to a new list). -/
def all_postprocess (recs : List PyRow) (columns : Cols)
    (back_as self_back_as : Option String) (registry : BackAsRegistry)
    (max_age_set : Bool) : Except PgErr (List Out × Bool) :=
  match recs with
  | [] => Except.ok ([], true)
  | r0 :: _ =>
    if r0.length = 1 ∧ back_as = none then
      Except.ok (recs.map (fun r => Out.val (r.headD Val.vnull)), false)
    else
      match effectiveBackAs back_as self_back_as with
      | some ba =>
        match registry ba with
        | none => Except.error PgErr.badBackAs
        | some f => Except.ok (recs.map (fun r => Out.record (f columns r)), false)
      | none =>
        if max_age_set then
          Except.ok (recs.map (fun r => Out.record (RowRec.tup r)), false)
        else
          Except.ok (recs.map (fun r => Out.record (RowRec.tup r)), true)

/-- Cached branch of `SimpleCursorBase.all` (`cursors.py` lines
384-386 followed by 391-406): the rows come from the cache entry and
`max_age` is set. -/
def all_cached (entry_columns : Cols) (entry_rows : List PyRow)
    (back_as self_back_as : Option String) (registry : BackAsRegistry) :
    Except PgErr (List Out × Bool) :=
  all_postprocess entry_rows entry_columns back_as self_back_as registry true

/-! Cache model (`postgres/cache.py`). The `OrderedDict` of entries is
modelled as a list of key-value pairs in insertion order, with unique
keys; timestamps from `time.perf_counter()` are rationals. -/

/-- Model of `CacheEntry` (`cache.py` lines 41-51). A placeholder entry
created by `get_lock` has `rows = none` (Python `None`). -/
structure CacheEntryM where
  query : String
  max_age : ℚ
  columns : Option Cols
  rows : Option (List PyRow)
  time : ℚ
  deriving DecidableEq

/-- Model of `Cache.entries`, an ordered dict from query text to entry. -/
abbrev CacheMap := List (String × CacheEntryM)

/-- Model of Python ordered-dict lookup `d.get(key)`: first binding wins
(keys are unique in a dict, so this is the binding). -/
def assocGet {α : Type} (key : String) : List (String × α) → Option α
  | [] => none
  | (k, v) :: rest => if k = key then some v else assocGet key rest

/-- Model of Python `d[key] = v` on an ordered dict: the value under an
existing key is replaced keeping its position, a new key is appended at
the end (dict insertion order). -/
def assocSet {α : Type} (l : List (String × α)) (key : String) (v : α) :
    List (String × α) :=
  match assocGet key l with
  | some _ => l.map (fun p => if p.1 = key then (key, v) else p)
  | none => l ++ [(key, v)]

/-- Model of `Cache.lookup` (`cache.py` lines 99-116). The second
component is the cache map after the call: the only mutation the method
performs is the in-place extension `entry.max_age = max_age`. -/
def cache_lookup (c : CacheMap) (key : String) (max_age now : ℚ) :
    Option CacheEntryM × CacheMap :=
  match assocGet key c with
  | none => (none, c)
  | some e =>
    if e.rows = none then (none, c)
    else if e.time < now - e.max_age then
      if now - max_age ≤ e.time then
        let e2 := { e with max_age := max_age }
        (some e2, assocSet c key e2)
      else (none, c)
    else (some e, c)

/-- Model of `OrderedDict.move_to_end(key)`; `none` models the
`KeyError` raised when the key is absent. -/
def moveToEnd (c : CacheMap) (key : String) : Option CacheMap :=
  match assocGet key c with
  | none => none
  | some e => some ((c.filter (fun p => p.1 != key)) ++ [(key, e)])

/-- Model of the eviction loop of `Cache.__setitem__` (`cache.py` lines
85-86): `while len(self.entries) > self.max_size:
self.entries.popitem(last=False)` — repeatedly drop the first (oldest)
item while the bound is exceeded. -/
def evictLoop (c : CacheMap) (max_size : Nat) : CacheMap :=
  match c with
  | [] => []
  | x :: rest =>
    if (x :: rest).length > max_size then evictLoop rest max_size
    else x :: rest

/-- Model of `Cache.__setitem__` (`cache.py` lines 77-86): assign,
`move_to_end` (returning early on `KeyError`), then evict. -/
def cache_setitem (c : CacheMap) (key : String) (e : CacheEntryM) (max_size : Nat) :
    CacheMap :=
  let c1 := assocSet c key e
  match moveToEnd c1 key with
  | none => c1
  | some c2 => evictLoop c2 max_size

/-- Model of the map effect of `Cache.get_lock` (`cache.py` lines 93-97):
`entries.setdefault(key, temporary_entry)` inserts a placeholder entry
(`max_age` 60, no columns, no rows) when the key is absent. No eviction
is performed. -/
def cache_get_lock (c : CacheMap) (key : String) (now : ℚ) : CacheMap :=
  match assocGet key c with
  | some _ => c
  | none =>
    c ++ [(key, { query := key, max_age := 60, columns := none, rows := none, time := now })]

/-! Context manager models (`postgres/context_managers.py`). Exits are
modelled as the sequence of externally visible resource events they
perform, together with the exception (if any) they let propagate. -/

/-- Resource events performed while exiting a scope. -/
inductive PoolEvent where
  | cursorClose
  | connCommitOrRollback
  | putconn
  deriving DecidableEq, Repr

/-- Exceptions raised by the driver during exit: `interfaceError` is
psycopg2 `InterfaceError` (connection already closed/broken). -/
inductive DbExc where
  | interfaceError
  | otherError
  deriving DecidableEq, Repr

/-- Model of `CursorContextManager.__exit__` (`context_managers.py`
lines 44-49): `self.cursor.close()`, then `self.conn.__exit__(...)`
(the driver commits or rolls back; `connExitOutcome` is the exception it
raises, if any), then `self.pool.putconn(self.conn)`. The three calls
are sequential with no `try`/`finally`/`except` around them, so an
exception from `conn.__exit__` propagates and skips `putconn`. -/
def cursor_cm_exit (connExitOutcome : Option DbExc) : List PoolEvent × Option DbExc :=
  match connExitOutcome with
  | none => ([PoolEvent.cursorClose, PoolEvent.connCommitOrRollback, PoolEvent.putconn], none)
  | some e => ([PoolEvent.cursorClose, PoolEvent.connCommitOrRollback], some e)

/-- Model of `ConnectionContextManager.__exit__` (`context_managers.py`
lines 153-160): rollback with `InterfaceError` swallowed, then
`putconn`. Included for contrast with `cursor_cm_exit`. -/
def connection_cm_exit (rollbackOutcome : Option DbExc) : List PoolEvent × Option DbExc :=
  match rollbackOutcome with
  | none => ([PoolEvent.connCommitOrRollback, PoolEvent.putconn], none)
  | some DbExc.interfaceError => ([PoolEvent.connCommitOrRollback, PoolEvent.putconn], none)
  | some e => ([PoolEvent.connCommitOrRollback], some e)

/-- Model of a cursor object for the subcontext manager: an identity
and the `back_as` attribute. -/
structure Cur where
  id : Nat
  back_as : Option String
  deriving DecidableEq, Repr

/-- Transaction-level state a context manager could touch: connections
acquired from the pool, commits and rollbacks performed. -/
structure TxEnv where
  pool_acquired : Nat
  commits : Nat
  rollbacks : Nat
  deriving DecidableEq, Repr

/-- Model of a `CursorSubcontextManager` instance
(`context_managers.py` lines 105-121). `back_as_arg = none` models the
`PRESERVE` sentinel (argument omitted); `some b` models an explicit
`back_as=b` argument, where `b` itself may be `none` (Python `None`). -/
structure SubCM where
  back_as_arg : Option (Option String)
  outer_back_as : Option (Option String)
  deriving DecidableEq, Repr

/-- Model of `CursorSubcontextManager.__enter__` (`context_managers.py`
lines 113-117): when an override was given, remember the cursor's
current `back_as` and install the override; return the same cursor. -/
def subcontext_enter (cm : SubCM) (c : Cur) (env : TxEnv) : SubCM × Cur × TxEnv :=
  match cm.back_as_arg with
  | none => (cm, c, env)
  | some b => ({ cm with outer_back_as := some c.back_as }, { c with back_as := b }, env)

/-- Model of `CursorSubcontextManager.__exit__` (`context_managers.py`
lines 119-121): restore the remembered `back_as` when an override was
given, otherwise do nothing. -/
def subcontext_exit (cm : SubCM) (c : Cur) (env : TxEnv) : Cur × TxEnv :=
  match cm.back_as_arg with
  | none => (c, env)
  | some _ => ({ c with back_as := cm.outer_back_as.getD none }, env)

/-! DelegatingCaster model (`postgres/__init__.py` lines 831-867). -/

/-- Exceptions raised by the psycopg2 composite parser. `dataError` and
`valueError` model `DataError` and `ValueError` (value/shape mismatch). -/
inductive ParseExc where
  | dataError
  | valueError
  | otherExc
  deriving DecidableEq, Repr

/-- Which exceptions the `except (DataError, ValueError)` clause of
`DelegatingCaster.parse` catches. -/
def retriable : ParseExc → Bool
  | ParseExc.dataError => true
  | ParseExc.valueError => true
  | ParseExc.otherExc => false

/-- Outcome of `DelegatingCaster.parse`: the result, the generation of
the composite type metadata cached on the caster after the call, and
the number of times the base `CompositeCaster.parse` was invoked. -/
structure ParseOutcome (α : Type) where
  result : Except ParseExc α
  metadataGen : Nat
  attempts : Nat
  deriving Repr

/-- Model of `DelegatingCaster.parse` (`__init__.py` lines 833-844).
`base g` is the result of the underlying `CompositeCaster.parse` when
the caster's cached type metadata has generation `g`; `catalogGen` is
the generation `_refetch_type_info` obtains from the catalog; `gen` is
the caster's current cached generation. The recursive call with
`retry=False` is unfolded: its `except` clause re-raises immediately. -/
def delegating_parse {α : Type} (base : Nat → Except ParseExc α)
    (catalogGen gen : Nat) : ParseOutcome α :=
  match base gen with
  | Except.ok r => { result := Except.ok r, metadataGen := gen, attempts := 1 }
  | Except.error e =>
    if retriable e then
      match base catalogGen with
      | Except.ok r => { result := Except.ok r, metadataGen := catalogGen, attempts := 2 }
      | Except.error e2 => { result := Except.error e2, metadataGen := catalogGen, attempts := 2 }
    else { result := Except.error e, metadataGen := gen, attempts := 1 }

/-! ORM model (`postgres/orm.py`). -/

/-- Exceptions raised by `Model` (`orm.py` lines 178-187):
`readOnlyAttr name` models `ReadOnly(name)` and `unknownAttributes`
models `UnknownAttributes(unknown)`. -/
inductive OrmErr where
  | readOnlyAttr (name : String)
  | unknownAttributes (names : List String)
  deriving DecidableEq, Repr

/-- Model of a `Model` instance: the attribute names recorded as
read-only at construction, and the instance `__dict__`. -/
structure ModelM where
  read_only_attributes : List String
  dict : List (String × Val)
  deriving DecidableEq, Repr

/-- Model of `Model.__setattr__` (`orm.py` lines 230-233) for an
external direct assignment. `db` is the log of SQL statements executed
against the database; the method never touches it. -/
def model_setattr (db : List String) (m : ModelM) (name : String) (v : Val) :
    Except OrmErr (ModelM × List String) :=
  if name ∈ m.read_only_attributes then Except.error (OrmErr.readOnlyAttr name)
  else Except.ok ({ m with dict := assocSet m.dict name v }, db)

/-- Model of `Model.set_attributes` (`orm.py` lines 235-254): collect
the unknown keys in order; raise if any, else `self.__dict__.update(**kw)`.
`db` is the log of SQL statements executed; the method never touches it. -/
def set_attributes (db : List String) (m : ModelM) (kw : List (String × Val)) :
    Except OrmErr (ModelM × List String) :=
  let unknown := (kw.filter (fun p => decide (p.1 ∉ m.read_only_attributes))).map Prod.fst
  if unknown = [] then
    Except.ok ({ m with dict := kw.foldl (fun d p => assocSet d p.1 p.2) m.dict }, db)
  else Except.error (OrmErr.unknownAttributes unknown)

/-- Model of the attribute-related part of `Model.__init__` (`orm.py`
lines 223-228): record the keys of the decoded record as read-only,
then populate the fields through `set_attributes`. -/
def model_init (record : List (String × Val)) : Except OrmErr (ModelM × List String) :=
  set_attributes [] { read_only_attributes := record.map Prod.fst, dict := [] } record

/-! Model registry (`postgres/__init__.py` lines 702-733). -/

/-- Registration errors of `Postgres.check_registration`. -/
inductive RegErr where
  | notRegistered
  deriving DecidableEq, Repr

/-- Model of the dynamically typed return value of `check_registration`:
a bare string or a list of strings. -/
inductive PyListOrStr where
  | pyStr (s : String)
  | pyList (l : List String)
  deriving DecidableEq, Repr

/-- Model of `Postgres.check_registration` (`__init__.py` lines
702-733). Model classes are identified by `Nat`; `isSubclassOf a b`
models Python `issubclass(a, b)`. The filter keeps registry entries `v`
with `v is ModelSubclass` or, when `include_subsubclasses` is set,
`issubclass(ModelSubclass, v)`. A single-element key list is
dereferenced to the bare string (the backwards-compatibility cruft at
lines 729-732). -/
def check_registration (registry : List (String × Nat)) (modelCls : Nat)
    (isSubclassOf : Nat → Nat → Bool) (include_subsubclasses : Bool) :
    Except RegErr PyListOrStr :=
  let filt : Nat → Bool := fun v =>
    if include_subsubclasses then v == modelCls || isSubclassOf modelCls v
    else v == modelCls
  let keys := (registry.filter (fun p => filt p.2)).map Prod.fst
  if keys = [] then Except.error RegErr.notRegistered
  else if keys.length = 1 then Except.ok (PyListOrStr.pyStr (keys.headD ""))
  else Except.ok (PyListOrStr.pyList keys)

/-! Concrete sample objects used to instantiate the theorems below. -/

/-- Sample query outcome after a DDL statement: the driver reports a
negative row count (`cursor.rowcount = -1`, no result set). -/
def resExC1 : QueryResult :=
  { columns := [], rowcount := -1, rows := [] }

/-- Sample `back_as_registry` containing a `dict` constructor. -/
def backAsRegistryEx : BackAsRegistry := fun k =>
  if k = "dict" then some (fun cols vals => RowRec.dict (cols.zip vals)) else none

/-- Sample populated cache entry: created at time 0 with `max_age` 5. -/
def entryC3 : CacheEntryM :=
  { query := "SELECT 1", max_age := 5, columns := some ["bar"],
    rows := some [[Val.vint 42]], time := 0 }

/-- Sample populated cache entry used for the cache-size analysis. -/
def entryC4 : CacheEntryM :=
  { query := "a", max_age := 5, columns := some ["bar"],
    rows := some [[Val.vint 1]], time := 0 }

/-- Sample base parser: fails with `DataError` on metadata generation 0
(the stale shape) and succeeds on generation 1 (the current catalog). -/
def exBaseC6 : Nat → Except ParseExc Nat := fun g =>
  if g = 0 then Except.error ParseExc.dataError else Except.ok 42

/-- Sample model instance decoded from the record `{bar: 'baz'}`. -/
def modelC7 : ModelM :=
  { read_only_attributes := ["bar"], dict := [("bar", Val.vstr "baz")] }

/-- Sample subcontext manager constructed with `back_as='dict'`. -/
def cmC8 : SubCM := { back_as_arg := some (some "dict"), outer_back_as := none }

/-- Sample cursor wrapped by the subcontext manager. -/
def curC8 : Cur := { id := 7, back_as := some "namedtuple" }

/-- Sample transaction environment: one connection checked out, nothing
committed or rolled back yet. -/
def envC8 : TxEnv := { pool_acquired := 1, commits := 0, rollbacks := 0 }

/-- Sample subclass relation on model-class identities used for
`check_registration`: class 2 is a strict subclass of class 1. -/
def isSubC9 : Nat → Nat → Bool := fun a b => a == b || (a == 2 && b == 1)

/-! Helper lemmas about the ordered-dict model. -/

theorem assocGet_append {α : Type} (l1 l2 : List (String × α)) (key : String) :
    assocGet key (l1 ++ l2) =
      match assocGet key l1 with
      | some v => some v
      | none => assocGet key l2 := by
  induction l1 with
  | nil => rfl
  | cons p rest ih =>
    obtain ⟨a, b⟩ := p
    by_cases hk : a = key <;> simp [assocGet, hk, ih]

theorem assocGet_mapReplace {α : Type} (l : List (String × α)) (key : String) (v : α)
    (h : assocGet key l ≠ none) :
    assocGet key (l.map (fun p => if p.1 = key then (key, v) else p)) = some v := by
  induction l with
  | nil => exact absurd rfl h
  | cons p rest ih =>
    obtain ⟨a, b⟩ := p
    simp only [List.map_cons]
    by_cases hk : a = key
    · rw [show (if (a, b).1 = key then (key, v) else (a, b)) = (key, v) from if_pos hk]
      simp [assocGet]
    · rw [show (if (a, b).1 = key then (key, v) else (a, b)) = (a, b) from if_neg hk]
      simp only [assocGet, if_neg hk]
      apply ih
      simpa only [assocGet, if_neg hk] using h

theorem assocGet_mapReplace_ne {α : Type} (l : List (String × α)) {k key : String}
    (h : k ≠ key) (v : α) :
    assocGet k (l.map (fun p => if p.1 = key then (key, v) else p)) = assocGet k l := by
  induction l with
  | nil => rfl
  | cons p rest ih =>
    obtain ⟨a, b⟩ := p
    simp only [List.map_cons]
    by_cases ha : a = key
    · rw [show (if (a, b).1 = key then (key, v) else (a, b)) = (key, v) from if_pos ha]
      simp only [assocGet, if_neg (show ¬key = k from fun hc => h hc.symm),
        if_neg (show ¬a = k from fun hc => h (hc ▸ ha))]
      exact ih
    · rw [show (if (a, b).1 = key then (key, v) else (a, b)) = (a, b) from if_neg ha]
      by_cases hak : a = k <;> simp [assocGet, hak, ih]

theorem assocGet_assocSet_self {α : Type} (l : List (String × α)) (key : String) (v : α) :
    assocGet key (assocSet l key v) = some v := by
  unfold assocSet
  cases h : assocGet key l with
  | none => rw [assocGet_append, h]; simp [assocGet]
  | some w => exact assocGet_mapReplace l key v (by rw [h]; exact fun hc => by cases hc)

theorem assocGet_assocSet_ne {α : Type} (l : List (String × α)) {k key : String}
    (h : k ≠ key) (v : α) : assocGet k (assocSet l key v) = assocGet k l := by
  unfold assocSet
  cases hget : assocGet key l with
  | none =>
    rw [assocGet_append]
    cases hk : assocGet k l with
    | none => simp [assocGet, show ¬key = k from fun hc => h hc.symm]
    | some w => rfl
  | some w => exact assocGet_mapReplace_ne l h v

theorem assocGet_foldl_not_mem {α : Type} (kw : List (String × α)) (d : List (String × α))
    {k : String} (h : k ∉ kw.map Prod.fst) :
    assocGet k (kw.foldl (fun d2 p => assocSet d2 p.1 p.2) d) = assocGet k d := by
  induction kw generalizing d with
  | nil => rfl
  | cons p rest ih =>
    obtain ⟨a, b⟩ := p
    simp only [List.map, List.mem_cons, not_or] at h
    simp only [List.foldl]
    rw [ih _ h.2, assocGet_assocSet_ne d h.1 b]

theorem assocGet_foldl_mem {α : Type} (kw : List (String × α)) (d : List (String × α))
    (hnodup : (kw.map Prod.fst).Nodup) {k : String} {v : α} (hmem : (k, v) ∈ kw) :
    assocGet k (kw.foldl (fun d2 p => assocSet d2 p.1 p.2) d) = some v := by
  induction kw generalizing d with
  | nil => cases hmem
  | cons p rest ih =>
    obtain ⟨a, b⟩ := p
    simp only [List.map, List.nodup_cons] at hnodup
    simp only [List.foldl]
    rcases List.mem_cons.mp hmem with heq | htail
    · injection heq with h1 h2
      subst h1
      subst h2
      rw [assocGet_foldl_not_mem rest _ hnodup.1, assocGet_assocSet_self]
    · exact ih _ hnodup.2 htail

theorem evictLoop_length_le (c : CacheMap) (m : Nat) : (evictLoop c m).length ≤ m := by
  induction c with
  | nil => simp [evictLoop]
  | cons x rest ih =>
    unfold evictLoop
    by_cases h : (x :: rest).length > m
    · rw [if_pos h]; exact ih
    · rw [if_neg h]; omega

theorem evictLoop_suffix (c : CacheMap) (m : Nat) : List.IsSuffix (evictLoop c m) c := by
  induction c with
  | nil => simp [evictLoop]
  | cons x rest ih =>
    unfold evictLoop
    by_cases h : (x :: rest).length > m
    · rw [if_pos h]
      exact ih.trans (List.suffix_cons x rest)
    · rw [if_neg h]

/-! Claim theorems. -/

/-- C1: for every call to `SimpleCursorBase.one`, if the executed query
yields exactly one row the call proceeds to the dereference/transform
stage with that row; if it yields zero rows it returns `default`, or
raises it when `default` is an `Exception` instance or subclass
(`defaultPolicy`); if the reported row count is negative (driver signal
for no result set, e.g. after DDL) it raises `TooFew(count, 0, 1)`; and
if it yields more than one row it raises `TooMany(count, 0, 1)`. -/
theorem one_rowcount_policy (res : QueryResult) (default : Dflt)
    (back_as self_back_as : Option String) (registry : BackAsRegistry) :
    (res.rowcount = 1 →
      one_uncached res default back_as self_back_as registry =
        deref_or_transform (res.rows.headD []) res.columns default back_as
          self_back_as registry) ∧
    (res.rowcount = 0 →
      one_uncached res default back_as self_back_as registry = defaultPolicy default) ∧
    (res.rowcount < 0 →
      one_uncached res default back_as self_back_as registry =
        Except.error (PgErr.tooFew res.rowcount 0 1)) ∧
    (1 < res.rowcount →
      one_uncached res default back_as self_back_as registry =
        Except.error (PgErr.tooMany res.rowcount 0 1)) := by
  unfold one_uncached one_body
  refine ⟨fun h => ?_, fun h => ?_, fun h => ?_, fun h => ?_⟩
  · rw [if_pos h]
  · rw [if_neg (by omega), if_pos h]
  · rw [if_neg (by omega), if_neg (by omega), if_pos h]
  · rw [if_neg (by omega), if_neg (by omega), if_neg (by omega)]

/-- C1 witness: a DDL statement reports `rowcount = -1` and `one`
raises `TooFew(-1, 0, 1)`. -/
theorem one_rowcount_policy_witness :
    one_uncached resExC1 { val := Val.vnull, isExc := false } none none (fun _ => none) =
      Except.error (PgErr.tooFew (-1) 0 1) :=
  (one_rowcount_policy resExC1 { val := Val.vnull, isExc := false } none none
    (fun _ => none)).2.2.1 (by decide)

/-- C2: for single-column rows with no explicit `back_as` argument,
`one` dereferences to the bare scalar (applying the zero-row `default`
policy when the scalar is SQL NULL) and `all` returns a flat list of
bare scalars; for multi-column rows or an explicit `back_as` argument,
full records are returned instead. -/
theorem dereference_law (row : PyRow) (columns : Cols) (default : Dflt)
    (back_as self_back_as : Option String) (registry : BackAsRegistry)
    (rows : List PyRow) :
    (row.length = 1 →
      (row.headD Val.vnull ≠ Val.vnull →
        deref_or_transform row columns default none self_back_as registry =
          Except.ok (Out.val (row.headD Val.vnull))) ∧
      (row.headD Val.vnull = Val.vnull →
        deref_or_transform row columns default none self_back_as registry =
          defaultPolicy default)) ∧
    ((row.length ≠ 1 ∨ back_as ≠ none) →
      (effectiveBackAs back_as self_back_as = none →
        deref_or_transform row columns default back_as self_back_as registry =
          Except.ok (Out.record (RowRec.tup row))) ∧
      (∀ ba f, effectiveBackAs back_as self_back_as = some ba → registry ba = some f →
        deref_or_transform row columns default back_as self_back_as registry =
          Except.ok (Out.record (f columns row)))) ∧
    (∀ r0 rest, rows = r0 :: rest → r0.length = 1 →
      ∀ max_age_set,
        all_postprocess rows columns none self_back_as registry max_age_set =
          Except.ok (rows.map (fun r => Out.val (r.headD Val.vnull)), false)) ∧
    (∀ r0 rest, rows = r0 :: rest → (r0.length ≠ 1 ∨ back_as ≠ none) →
      ∀ max_age_set outs aliased,
        all_postprocess rows columns back_as self_back_as registry max_age_set =
          Except.ok (outs, aliased) →
        ∀ x ∈ outs, ∃ r, x = Out.record r) := by
  refine ⟨fun h1 => ?_, fun h2 => ?_, ?_, ?_⟩
  · unfold deref_or_transform
    rw [if_pos ⟨h1, rfl⟩]
    exact ⟨fun hne => by rw [if_neg hne], fun heq => by rw [if_pos heq]⟩
  · have hne : ¬(row.length = 1 ∧ back_as = none) := by
      intro hboth
      rcases h2 with h | h
      · exact h hboth.1
      · exact h hboth.2
    unfold deref_or_transform
    rw [if_neg hne]
    constructor
    · intro heff
      rw [heff]
    · intro ba f hba hf
      simp only [hba, hf]
  · intro r0 rest hrows h1 max_age_set
    subst hrows
    simp only [all_postprocess]
    rw [if_pos ⟨h1, trivial⟩]
  · intro r0 rest hrows hcond max_age_set outs aliased hok x hx
    subst hrows
    have hne : ¬(r0.length = 1 ∧ back_as = none) := by
      intro hboth
      rcases hcond with h | h
      · exact h hboth.1
      · exact h hboth.2
    simp only [all_postprocess, if_neg hne] at hok
    cases heff : effectiveBackAs back_as self_back_as with
    | some ba =>
      simp only [heff] at hok
      cases hreg : registry ba with
      | none => simp [hreg] at hok
      | some f =>
        simp only [hreg, Except.ok.injEq, Prod.mk.injEq] at hok
        obtain ⟨houts, _⟩ := hok
        subst houts
        obtain ⟨r, _, rfl⟩ := List.mem_map.mp hx
        exact ⟨f columns r, rfl⟩
    | none =>
      simp only [heff] at hok
      cases max_age_set <;>
        simp only [Bool.false_eq_true, if_true, if_false, Except.ok.injEq,
          Prod.mk.injEq, reduceIte] at hok <;>
        · obtain ⟨houts, _⟩ := hok
          subst houts
          obtain ⟨r, _, rfl⟩ := List.mem_map.mp hx
          exact ⟨RowRec.tup r, rfl⟩

/-- C2 witness: a single-column, single-row result with no explicit
`back_as` dereferences to the bare scalar 42, and a single-column
result set gives `all` a flat list of scalars. -/
theorem dereference_law_witness :
    deref_or_transform [Val.vint 42] ["baz"] { val := Val.vnull, isExc := false }
      none (some "namedtuple") backAsRegistryEx = Except.ok (Out.val (Val.vint 42)) ∧
    all_postprocess [[Val.vint 537], [Val.vint 42]] ["baz"] none (some "namedtuple")
      backAsRegistryEx false =
      Except.ok ([Out.val (Val.vint 537), Out.val (Val.vint 42)], false) := by
  constructor
  · exact ((dereference_law [Val.vint 42] ["baz"] { val := Val.vnull, isExc := false }
      none (some "namedtuple") backAsRegistryEx []).1 (by decide)).1 (by decide)
  · exact (dereference_law [] ["baz"] { val := Val.vnull, isExc := false }
      none (some "namedtuple") backAsRegistryEx [[Val.vint 537], [Val.vint 42]]).2.2.1
      [Val.vint 537] [[Val.vint 42]] rfl (by decide) false

/-- C3: `Cache.lookup(key, maxAge)` returns nothing when there is no
entry or the entry is a placeholder (`rows = none`); returns the entry
unchanged when its age is within its own recorded `max_age`; when the
entry is staler than its own `max_age` but within the caller's
requested `max_age`, returns it with its stored `max_age` extended in
place to the caller's strictly larger value (so the stored `max_age`
never decreases); and otherwise returns nothing, leaving the entry in
place. -/
theorem cache_lookup_policy (c : CacheMap) (key : String) (max_age now : ℚ) :
    (assocGet key c = none → cache_lookup c key max_age now = (none, c)) ∧
    (∀ e, assocGet key c = some e → e.rows = none →
      cache_lookup c key max_age now = (none, c)) ∧
    (∀ e, assocGet key c = some e → e.rows ≠ none → now - e.time ≤ e.max_age →
      cache_lookup c key max_age now = (some e, c)) ∧
    (∀ e, assocGet key c = some e → e.rows ≠ none → e.max_age < now - e.time →
      now - e.time ≤ max_age →
      cache_lookup c key max_age now =
        (some { e with max_age := max_age }, assocSet c key { e with max_age := max_age }) ∧
      e.max_age < max_age) ∧
    (∀ e, assocGet key c = some e → e.rows ≠ none → e.max_age < now - e.time →
      max_age < now - e.time →
      cache_lookup c key max_age now = (none, c)) := by
  refine ⟨fun h => ?_, fun e he hrows => ?_, fun e he hrows hfresh => ?_,
    fun e he hrows hstale hwin => ?_, fun e he hrows hstale hmiss => ?_⟩
  · unfold cache_lookup; rw [h]
  · unfold cache_lookup; simp only [he]; rw [if_pos hrows]
  · unfold cache_lookup; simp only [he]
    rw [if_neg hrows, if_neg (by intro hc; linarith)]
  · constructor
    · unfold cache_lookup
      simp only [he]
      rw [if_neg hrows, if_pos (by linarith), if_pos (by linarith)]
    · linarith
  · unfold cache_lookup
    simp only [he]
    rw [if_neg hrows, if_pos (by linarith), if_neg (by intro hc; linarith)]

/-- C3 witness: the entry created at time 0 with `max_age` 5, looked up
at time 10 with requested `max_age` 20, is returned with its stored
`max_age` extended to 20, and 5 < 20. -/
theorem cache_lookup_policy_witness :
    cache_lookup [("SELECT 1", entryC3)] "SELECT 1" 20 10 =
      (some { entryC3 with max_age := 20 },
        assocSet [("SELECT 1", entryC3)] "SELECT 1" { entryC3 with max_age := 20 }) ∧
    entryC3.max_age < 20 :=
  (cache_lookup_policy [("SELECT 1", entryC3)] "SELECT 1" 20 10).2.2.2.1 entryC3
    rfl (by decide) (by norm_num [entryC3]) (by norm_num [entryC3])

/-- C4 counterexample: with `max_size = 1` and a full cache,
`Cache.get_lock` on an absent key inserts a reservation entry through
`setdefault` without evicting anything, leaving 2 entries in the cache,
which exceeds `max_size`. -/
theorem cache_get_lock_exceeds_bound :
    cache_setitem [] "a" entryC4 1 = [("a", entryC4)] ∧
    (cache_get_lock (cache_setitem [] "a" entryC4 1) "b" 3).length = 2 ∧
    ¬((cache_get_lock (cache_setitem [] "a" entryC4 1) "b" 3).length ≤ 1) := by
  refine ⟨by decide, by decide, by decide⟩

/-- C4 amended: after an insertion through `Cache.__setitem__` the
number of entries is at most `max_size`, and the surviving entries are
a suffix of the reordered map, i.e. the oldest entries are the ones
evicted; the reservation entries created by `Cache.get_lock` for absent
keys are however inserted without eviction and can push the cache past
`max_size`. -/
theorem cache_setitem_bounded (c : CacheMap) (key : String) (e : CacheEntryM) (m : Nat) :
    (cache_setitem c key e m).length ≤ m ∧
    ∃ c2, moveToEnd (assocSet c key e) key = some c2 ∧
      List.IsSuffix (cache_setitem c key e m) c2 := by
  have hget := assocGet_assocSet_self c key e
  have hmove : moveToEnd (assocSet c key e) key =
      some (((assocSet c key e).filter (fun p => p.1 != key)) ++ [(key, e)]) := by
    unfold moveToEnd
    rw [hget]
  have hrun : cache_setitem c key e m =
      evictLoop (((assocSet c key e).filter (fun p => p.1 != key)) ++ [(key, e)]) m := by
    unfold cache_setitem
    simp only [hmove]
  refine ⟨?_, _, hmove, ?_⟩
  · rw [hrun]; exact evictLoop_length_le _ m
  · rw [hrun]; exact evictLoop_suffix _ m

/-- C5: evaluation of `CursorContextManager.__exit__` at the failing
scenario of the repo's own test `test_cursor_rollback_exception_is_ignored`
(`tests.py`): the connection was closed inside the block, so the
commit/rollback performed by `conn.__exit__` raises `InterfaceError`.
The exit code has no `try`/`finally`/`except`, so the error propagates,
the connection is never returned to the pool, and nothing is swallowed;
by contrast `ConnectionContextManager.__exit__` does swallow the
`InterfaceError` and still returns the connection. -/
theorem cursor_cm_exit_skips_putconn_on_rollback_failure :
    cursor_cm_exit (some DbExc.interfaceError) =
      ([PoolEvent.cursorClose, PoolEvent.connCommitOrRollback], some DbExc.interfaceError) ∧
    PoolEvent.putconn ∉ (cursor_cm_exit (some DbExc.interfaceError)).1 ∧
    connection_cm_exit (some DbExc.interfaceError) =
      ([PoolEvent.connCommitOrRollback, PoolEvent.putconn], none) := by
  refine ⟨rfl, by decide, rfl⟩

/-- C6: `DelegatingCaster.parse` retries exactly once on a value/shape
mismatch (`DataError` or `ValueError`): it re-fetches the composite
type metadata from the catalog (the caster's cached metadata generation
becomes `catalogGen`), invokes the base parser a second time, and
propagates the outcome of that retry, whether success or failure; a
successful first parse performs no re-fetch, and a non-retriable
exception propagates immediately without a re-fetch. -/
theorem delegating_parse_retry_policy {α : Type} (base : Nat → Except ParseExc α)
    (catalogGen gen : Nat) :
    (∀ r, base gen = Except.ok r →
      delegating_parse base catalogGen gen =
        { result := Except.ok r, metadataGen := gen, attempts := 1 }) ∧
    (∀ e, base gen = Except.error e → retriable e = true →
      delegating_parse base catalogGen gen =
        { result := base catalogGen, metadataGen := catalogGen, attempts := 2 }) ∧
    (∀ e, base gen = Except.error e → retriable e = false →
      delegating_parse base catalogGen gen =
        { result := Except.error e, metadataGen := gen, attempts := 1 }) := by
  refine ⟨fun r h => ?_, fun e h hret => ?_, fun e h hret => ?_⟩
  · unfold delegating_parse
    simp only [h]
  · unfold delegating_parse
    simp only [h, hret, if_true]
    cases hb : base catalogGen <;> simp [hb]
  · unfold delegating_parse
    simp only [h, hret]
    rw [if_neg (by simp)]

/-- C6 witness: with stale metadata generation 0 the base parser raises
`DataError`; the delegating caster re-fetches (generation becomes 1)
and the retried decode succeeds with 42 after exactly 2 attempts. -/
theorem delegating_parse_retry_policy_witness :
    delegating_parse exBaseC6 1 0 =
      { result := Except.ok 42, metadataGen := 1, attempts := 2 } :=
  (delegating_parse_retry_policy exBaseC6 1 0).2.1 ParseExc.dataError rfl rfl

/-- C7: a `Model` records the attribute names supplied at construction
as read-only; a later external direct assignment to one of those names
raises the read-only error naming that attribute; `set_attributes`
raises `UnknownAttributes` listing every key not among the
construction-time names, and otherwise updates the in-memory fields to
the given values while leaving the database untouched (the SQL log `db`
is returned unchanged). -/
theorem model_field_discipline (db : List String) (m : ModelM)
    (kw : List (String × Val)) :
    (∀ record : List (String × Val), ∃ m0,
      model_init record = Except.ok (m0, []) ∧
      m0.read_only_attributes = record.map Prod.fst) ∧
    (∀ name v, name ∈ m.read_only_attributes →
      model_setattr db m name v = Except.error (OrmErr.readOnlyAttr name)) ∧
    ((∃ p ∈ kw, p.1 ∉ m.read_only_attributes) →
      set_attributes db m kw =
        Except.error (OrmErr.unknownAttributes
          ((kw.filter (fun p => decide (p.1 ∉ m.read_only_attributes))).map Prod.fst))) ∧
    ((kw.map Prod.fst).Nodup → (∀ p ∈ kw, p.1 ∈ m.read_only_attributes) →
      ∃ m2, set_attributes db m kw = Except.ok (m2, db) ∧
        m2.read_only_attributes = m.read_only_attributes ∧
        (∀ k v, (k, v) ∈ kw → assocGet k m2.dict = some v) ∧
        (∀ k, k ∉ kw.map Prod.fst → assocGet k m2.dict = assocGet k m.dict)) := by
  refine ⟨fun record => ?_, fun name v hname => ?_, fun hunk => ?_, fun hnodup hall => ?_⟩
  · refine ⟨⟨record.map Prod.fst, record.foldl (fun d p => assocSet d p.1 p.2) []⟩, ?_, rfl⟩
    unfold model_init set_attributes
    rw [if_pos ?hfil]
    case hfil =>
      rw [List.map_eq_nil_iff, List.filter_eq_nil_iff]
      intro p hp
      simp only [decide_eq_true_eq, Decidable.not_not]
      exact List.mem_map_of_mem Prod.fst hp
  · unfold model_setattr
    rw [if_pos hname]
  · unfold set_attributes
    rw [if_neg ?hne]
    case hne =>
      obtain ⟨p, hp, hnot⟩ := hunk
      intro hnil
      rw [List.map_eq_nil_iff, List.filter_eq_nil_iff] at hnil
      exact hnil p hp (by simpa using hnot)
  · refine ⟨⟨m.read_only_attributes, kw.foldl (fun d p => assocSet d p.1 p.2) m.dict⟩, ?_, rfl, ?_, ?_⟩
    · unfold set_attributes
      rw [if_pos ?hfil2]
      case hfil2 =>
        rw [List.map_eq_nil_iff, List.filter_eq_nil_iff]
        intro p hp
        simp only [decide_eq_true_eq, Decidable.not_not]
        exact hall p hp
    · intro k v hkv
      exact assocGet_foldl_mem kw m.dict hnodup hkv
    · intro k hk
      exact assocGet_foldl_not_mem kw m.dict hk

/-- C7 witness: for the instance decoded from `{bar: 'baz'}`, direct
assignment to `bar` raises the read-only error naming `bar`, and
`set_attributes(bar='x')` succeeds, updates the field to `'x'`, and
leaves the SQL log unchanged. -/
theorem model_field_discipline_witness :
    model_setattr ["INSERT"] modelC7 "bar" (Val.vstr "x") =
      Except.error (OrmErr.readOnlyAttr "bar") ∧
    set_attributes ["INSERT"] modelC7 [("bar", Val.vstr "x")] =
      Except.ok ({ modelC7 with dict := [("bar", Val.vstr "x")] }, ["INSERT"]) := by
  constructor
  · exact (model_field_discipline ["INSERT"] modelC7 [("bar", Val.vstr "x")]).2.1
      "bar" (Val.vstr "x") (by decide)
  · obtain ⟨m2, hok, -, hval, -⟩ :=
      (model_field_discipline ["INSERT"] modelC7 [("bar", Val.vstr "x")]).2.2.2
        (by decide) (by decide)
    have hm2 : m2 = { modelC7 with dict := [("bar", Val.vstr "x")] } := by
      have := hok
      unfold set_attributes at this
      rw [if_pos (by decide)] at this
      simpa [modelC7, assocSet, assocGet] using this.symm
    rw [← hm2]
    exact hok

/-- C8: a subtransaction scope acquires no connection and performs no
commit or rollback (the transaction environment is unchanged by both
enter and exit), enter returns the very cursor that was passed in, and
the cursor's `back_as` is swapped to the override on enter and restored
on exit exactly when an override was given, being left untouched
throughout otherwise. -/
theorem subcontext_frame (cm : SubCM) (c : Cur) (env : TxEnv) :
    (subcontext_enter cm c env).2.2 = env ∧
    (subcontext_enter cm c env).2.1.id = c.id ∧
    (∀ cm2 c2 env2, (subcontext_exit cm2 c2 env2).2 = env2) ∧
    (cm.back_as_arg = none →
      (subcontext_enter cm c env).2.1 = c ∧ (subcontext_exit cm c env).1 = c) ∧
    (∀ b, cm.back_as_arg = some b →
      (subcontext_enter cm c env).2.1.back_as = b ∧
      (subcontext_exit (subcontext_enter cm c env).1
        (subcontext_enter cm c env).2.1 env).1 = c) := by
  refine ⟨?_, ?_, fun cm2 c2 env2 => ?_, fun h => ?_, fun b h => ?_⟩
  · cases hcm : cm.back_as_arg <;> simp [subcontext_enter, hcm]
  · cases hcm : cm.back_as_arg <;> simp [subcontext_enter, hcm]
  · cases hcm : cm2.back_as_arg <;> simp [subcontext_exit, hcm]
  · simp [subcontext_enter, subcontext_exit, h]
  · simp [subcontext_enter, subcontext_exit, h]

/-- C8 witness: wrapping a cursor with `back_as='dict'` installs the
override on enter, returns the same cursor, restores the previous
`back_as` (`'namedtuple'`) on exit, and never touches the pool or the
transaction. -/
theorem subcontext_frame_witness :
    (subcontext_enter cmC8 curC8 envC8).2.2 = envC8 ∧
    (subcontext_enter cmC8 curC8 envC8).2.1.back_as = some "dict" ∧
    (subcontext_exit (subcontext_enter cmC8 curC8 envC8).1
      (subcontext_enter cmC8 curC8 envC8).2.1 envC8).1 = curC8 := by
  obtain ⟨h1, -, -, -, h5⟩ := subcontext_frame cmC8 curC8 envC8
  obtain ⟨h2, h3⟩ := h5 (some "dict") rfl
  exact ⟨h1, h2, h3⟩

/-- C9: evaluation of `Postgres.check_registration` at the inputs of
the repo's own tests. With an empty registry it raises `NotRegistered`
and with several matching registrations it returns the list of type
names, as the claim states; but with a single matching registration it
returns the bare string `'foo'` rather than the one-element list
`['foo']` that the tests `test_check_register_returns_string_for_single`
and `test_dot_dot_dot_unless_you_ask_it_to` assert. -/
theorem check_registration_single_is_string :
    check_registration [] 1 isSubC9 false = Except.error RegErr.notRegistered ∧
    check_registration [("flah", 1), ("foo", 1)] 1 isSubC9 false =
      Except.ok (PyListOrStr.pyList ["flah", "foo"]) ∧
    check_registration [("foo", 1)] 1 isSubC9 false = Except.ok (PyListOrStr.pyStr "foo") ∧
    check_registration [("foo", 1)] 2 isSubC9 true = Except.ok (PyListOrStr.pyStr "foo") ∧
    Except.ok (PyListOrStr.pyStr "foo") ≠
      (Except.ok (PyListOrStr.pyList ["foo"]) : Except RegErr PyListOrStr) := by
  refine ⟨rfl, rfl, rfl, rfl, by simp⟩

/-- C10 counterexample: when the cached result set is empty, the
`if recs:` guard at `cursors.py` line 391 is falsy and `all` returns
`entry.rows` itself — the very list object stored in the cache entry
(the boolean `true` in the model), not a fresh copy. -/
theorem all_cached_aliases_empty_rows :
    all_cached ["bar"] [] none none (fun _ => none) = Except.ok ([], true) := rfl

/-- C10 amended: whenever the cached result set is nonempty, the list
returned by `SimpleCursorBase.all` with `max_age` set is a fresh list —
built by `list(map(...))`, a list comprehension, or `recs.copy()` —
so mutating it leaves the cached entry's rows unchanged; when the
cached result set is empty, however, the cache entry's own empty list
object is returned. -/
theorem all_cached_fresh_when_nonempty (entry_columns : Cols) (entry_rows : List PyRow)
    (back_as self_back_as : Option String) (registry : BackAsRegistry)
    (h : entry_rows ≠ []) (outs : List Out) (aliased : Bool)
    (hok : all_cached entry_columns entry_rows back_as self_back_as registry =
      Except.ok (outs, aliased)) :
    aliased = false := by
  cases entry_rows with
  | nil => exact absurd rfl h
  | cons r0 rest =>
    simp only [all_cached, all_postprocess] at hok
    by_cases hc : r0.length = 1 ∧ back_as = none
    · rw [if_pos hc] at hok
      simp only [Except.ok.injEq, Prod.mk.injEq] at hok
      exact hok.2.symm
    · rw [if_neg hc] at hok
      cases heff : effectiveBackAs back_as self_back_as with
      | some ba =>
        simp only [heff] at hok
        cases hreg : registry ba with
        | none => simp [hreg] at hok
        | some f =>
          simp only [hreg, Except.ok.injEq, Prod.mk.injEq] at hok
          exact hok.2.symm
      | none =>
        simp only [heff, if_true, Except.ok.injEq, Prod.mk.injEq] at hok
        exact hok.2.symm

/-- C10 witness: a nonempty single-column cached result is returned as
a fresh list of dereferenced scalars, with the aliasing flag `false`. -/
theorem all_cached_fresh_when_nonempty_witness :
    all_cached ["bar"] [[Val.vint 1]] none none (fun _ => none) =
      Except.ok ([Out.val (Val.vint 1)], false) ∧ (false = false) :=
  ⟨rfl, all_cached_fresh_when_nonempty ["bar"] [[Val.vint 1]] none none (fun _ => none)
    (by decide) [Out.val (Val.vint 1)] false rfl⟩

end PostgresPy
